import Mathlib

/-!
Verification of the MC73 payment-document generation pipeline.

Shallow embedding of the core services:
* `backend/src/services/bankAccount.js` — Serbian bank-account parsing and
  normalization (`parseBankAccount`, `isValidBankAccount`);
* `backend/src/services/qrCode.js` — NBS IPS QR payload construction
  (`generateQRCodeData`, `generatePaymentQRCode`);
* `services/pdfGenerator` (the Cyrillic backend variant) — payment-slip
  rendering and pagination (`generatePayerInfo`, `generateReferenceNumber`,
  `drawPaymentSlip`, `generatePaymentSlipsPDF`), together with the HTTP
  route guard of `routes/billings` (`GET /pdf/:year/:month`).

Strings are modelled as `List Char` (the character sequence of a JS string);
JS numbers that the data model constrains to exact two-decimal amounts are
modelled as non-negative amounts in cents. Network fetches are modelled by an
explicit oracle passed to the assembler. Fonts are assumed present (the
font-missing startup failure is an environment condition outside the data
path).
-/

namespace MC73

/-- Digit character for `d < 10` (embedding of JS number→string digits). -/
def digitChar (d : Nat) : Char := Char.ofNat (48 + d)

/-- Decimal representation of a natural number as a character list: the
embedding of JS `String(n)` for non-negative integers. -/
def natChars (n : Nat) : List Char :=
  if h : n < 10 then [digitChar n]
  else natChars (n / 10) ++ [digitChar (n % 10)]
decreasing_by exact Nat.div_lt_self (by omega) (by omega)

/-- Embedding of JS `String.prototype.padStart(targetLength, padChar)`. -/
def padStart (l : List Char) (targetLength : Nat) (c : Char) : List Char :=
  List.replicate (targetLength - l.length) c ++ l

/-- `String(n).padStart(2, '0')`, used for reference-number segments. -/
def pad2 (n : Nat) : List Char := padStart (natChars n) 2 '0'

/-- Embedding of JS `String.prototype.replace(search, replacement)` with a
single-character search string: replaces the first occurrence only. -/
def jsReplaceFirst : List Char → Char → List Char → List Char
  | [], _, _ => []
  | c :: cs, t, r => if c = t then r ++ cs else c :: jsReplaceFirst cs t r

/-- A character matching the JS regex class `\d`. -/
def isDigitCh (c : Char) : Bool := '0' ≤ c && c ≤ '9'

/-- Characters removed by `input.replace(/[-\s]/g, '')`: dashes and
whitespace. -/
def isSeparator (c : Char) : Bool := c = '-' || c.isWhitespace

/-- `input.replace(/[-\s]/g, '')`. -/
def stripSeparators (l : List Char) : List Char :=
  l.filter (fun c => !(isSeparator c))

/-- The value object returned by `parseBankAccount` (bankAccount.js:31–53):
bank code, zero-padded account segment, control digits, dash-delimited
display form and concatenated digit form. -/
structure BankAccount where
  bank : List Char
  account : List Char
  control : List Char
  formatted : List Char
  digits : List Char
deriving Repr, DecidableEq

/-- The three `throw new Error(...)` sites of `parseBankAccount`. -/
inductive ParseError where
  | required
  | nonDigit
  | badLength
deriving Repr, DecidableEq

/-- Embedding of `parseBankAccount` (bankAccount.js:16–57).
`required` models `'Bank account number is required'` (empty input),
`nonDigit` models `'Bank account must contain only digits'` (the regex
`/^\d+$/` fails, also when nothing remains after stripping), `badLength`
models the final `'Invalid bank account format'` throw. -/
def parseBankAccount (input : List Char) : Except ParseError BankAccount :=
  if input.isEmpty then .error .required
  else
    let digits := stripSeparators input
    if digits.isEmpty || !digits.all isDigitCh then .error .nonDigit
    else if digits.length = 18 then
      .ok { bank := digits.take 3
            account := (digits.drop 3).take 13
            control := (digits.drop 16).take 2
            formatted := digits.take 3 ++ '-' :: ((digits.drop 3).take 13 ++
              '-' :: (digits.drop 16).take 2)
            digits := digits }
    else if 7 ≤ digits.length ∧ digits.length < 18 then
      let bank := digits.take 3
      let control := digits.drop (digits.length - 2)
      let accountPart := (digits.take (digits.length - 2)).drop 3
      let account := padStart accountPart 13 '0'
      .ok { bank := bank
            account := account
            control := control
            formatted := bank ++ '-' :: (account ++ '-' :: control)
            digits := bank ++ account ++ control }
    else .error .badLength

/-- Embedding of `formatForDisplay` (bankAccount.js:64–67); the JS throw is
modelled by the `Except` error. -/
def formatForDisplay (bankAccount : List Char) : Except ParseError (List Char) :=
  (parseBankAccount bankAccount).map BankAccount.formatted

/-- Embedding of `formatForQR` (bankAccount.js:74–77). -/
def formatForQR (bankAccount : List Char) : Except ParseError (List Char) :=
  (parseBankAccount bankAccount).map BankAccount.digits

/-- Embedding of `isValidBankAccount` (bankAccount.js:84–91): the
`try/catch` around `parseBankAccount` becomes a match on the `Except`. -/
def isValidBankAccount (input : List Char) : Bool :=
  match parseBankAccount input with
  | .ok _ => true
  | .error _ => false

/-- Embedding of JS `x || y` on an optional amount: `null`/`undefined`/`0`
are falsy, so a missing or zero override falls back to the default
(`apartment.override_amount || building.default_amount`). -/
def jsOr (override : Option Nat) (dflt : Nat) : Nat :=
  match override with
  | some v => if v = 0 then dflt else v
  | none => dflt

/-- Apartment record as consumed by the pipeline (fields of the persistence
layer used by qrCode.js and pdfGenerator.js). -/
structure Apartment where
  apartment_number : Nat
  apartment_on_floor : Nat
  floor_number : Nat
  owner_name : List Char
  override_amount : Option Nat
deriving Repr, DecidableEq

/-- Building record as consumed by the pipeline. `default_amount` (and the
override) are in cents: the data model constrains amounts to positive
decimals with two fractional digits. -/
structure Building where
  address : List Char
  city : List Char
  bank_account : List Char
  recipient_name : List Char
  payment_purpose : List Char
  default_amount : Nat
deriving Repr, DecidableEq

/-- `Number(amount).toFixed(2)` for an exact two-decimal amount given in
cents: integer part, a dot, and the zero-padded fractional part. -/
def toFixed2 (cents : Nat) : List Char :=
  natChars (cents / 100) ++ '.' :: pad2 (cents % 100)

/-- The NBS IPS QR payload object built by `generateQRCodeData`
(qrCode.js:66–77). -/
structure QRCodeData where
  K : List Char
  V : List Char
  C : List Char
  R : List Char
  N : List Char
  I : List Char
  SF : List Char
  S : List Char
  RO : List Char
  P : List Char
deriving Repr, DecidableEq

/-- Parameter object of `generateQRCodeData` (qrCode.js:33–45); the amount
is in cents (see `toFixed2`). -/
structure QRParams where
  bankAccount : List Char
  recipientName : List Char
  recipientAddress : List Char
  recipientCity : List Char
  amountCents : Nat
  referenceNumber : List Char
  paymentPurpose : List Char
  payerName : List Char
  payerAddress : List Char
  payerCity : List Char
deriving Repr, DecidableEq

/-- Embedding of `generateQRCodeData` (qrCode.js:33–78). The only failure
mode is the `formatForQR` call propagating a `parseBankAccount` throw. -/
def generateQRCodeData (params : QRParams) : Except ParseError QRCodeData :=
  (formatForQR params.bankAccount).map fun formattedAccount =>
    { K := "PR".data
      V := "01".data
      C := "1".data
      R := formattedAccount
      N := (params.recipientName ++ "\r\n".data ++ params.recipientAddress).take 70
      I := "RSD".data ++ jsReplaceFirst (toFixed2 params.amountCents) '.' [',']
      SF := "289".data
      S := params.paymentPurpose
      RO := jsReplaceFirst params.referenceNumber '/' []
      P := params.payerName ++ "\r\n".data ++ params.payerAddress ++
        "\r\n".data ++ params.payerCity }

/-- Embedding of the payload-construction part of `generatePaymentQRCode`
(qrCode.js:121–153): amount resolution, `XX/YY` reference number, and the
parameter object handed to `generateQRCodeData`. -/
def generatePaymentQRCodeData (apartment : Apartment) (building : Building)
    (month : Nat) : Except ParseError QRCodeData :=
  generateQRCodeData
    { bankAccount := building.bank_account
      recipientName := building.recipient_name
      recipientAddress := building.address
      recipientCity := building.city
      amountCents := jsOr apartment.override_amount building.default_amount
      referenceNumber := pad2 apartment.apartment_number ++ '/' ::
        pad2 month
      paymentPurpose := building.payment_purpose
      payerName := apartment.owner_name
      payerAddress := building.address ++ ", ".data ++
        natChars apartment.floor_number ++ ", ".data ++
        natChars apartment.apartment_number
      payerCity := building.city }

/-- Embedding of `generateReferenceNumber` (pdfGenerator, backend variant
with the `/` delimiter). -/
def generateReferenceNumber (apartmentNumber month : Nat) : List Char :=
  pad2 apartmentNumber ++ '/' :: pad2 month

/-- Embedding of `generatePayerInfo` of the Cyrillic backend pdfGenerator:
line 2 interpolates `building.address`, `apartment.floor_number` and
`apartment.apartment_on_floor`. -/
def generatePayerInfo (apartment : Apartment) (building : Building) :
    List (List Char) :=
  [apartment.owner_name,
   building.address ++ ", спрат ".data ++ natChars apartment.floor_number ++
     ", стан ".data ++ natChars apartment.apartment_on_floor,
   building.city]

/-- Embedding of the worker pdfGenerator's `generatePayerInfo`, whose
line 2 interpolates `apartment.apartment_number` instead. -/
def generatePayerInfoWorker (apartment : Apartment) (building : Building) :
    List (List Char) :=
  [apartment.owner_name,
   building.address ++ ", спрат ".data ++ natChars apartment.floor_number ++
     ", стан ".data ++ natChars apartment.apartment_number,
   building.city]

/-- Abstract QR raster image handed back by the NBS fetch. -/
abbrev QRImage := Nat

/-- Outcome oracle for `generatePaymentQRCode`'s network fetch for one
apartment within one `generatePaymentSlipsPDF` call (building, month, year
and pixel size are fixed by that call): `.error` models a throw
(`NetworkError`/`UpstreamError`), `.ok` a received image. -/
abbrev QRFetch := Apartment → Except (List Char) QRImage

/-- The per-apartment `try { ... } catch { return null }` of the assembler
(pdfGenerator: the `Promise.all` body): a failed fetch yields `null` for
that apartment only. -/
def fetchOrNull (fetch : QRFetch) (apartment : Apartment) : Option QRImage :=
  match fetch apartment with
  | .ok img => some img
  | .error _ => none

/-- Observable result of `drawPaymentSlip` for one slip: the data drawn in
the slip's band plus the loop's pagination bookkeeping. -/
structure SlipDrawn where
  apartment : Apartment
  slotIndex : Nat
  newPageBefore : Bool
  qr : Option QRImage
  payerLines : List (List Char)
  accountDisplay : List Char
  amountCents : Nat
  refNumber : List Char
  cutLine : Bool
deriving Repr, DecidableEq

/-- Embedding of `drawPaymentSlip` (backend pdfGenerator). The
dash-formatted account is passed in already parsed: `formatForDisplay` is
loop-invariant and its throw is surfaced by `generatePaymentSlipsPDF`
before any slip is drawn. The dashed cut line is emitted iff
`slipIndex < 2`. -/
def drawPaymentSlip (apartment : Apartment) (building : Building)
    (month : Nat) (slipIndex : Nat) (qrCodeBuffer : Option QRImage)
    (accountFormatted : List Char) : SlipDrawn :=
  { apartment := apartment
    slotIndex := slipIndex
    newPageBefore := false
    qr := qrCodeBuffer
    payerLines := generatePayerInfo apartment building
    accountDisplay := accountFormatted
    amountCents := jsOr apartment.override_amount building.default_amount
    refNumber := generateReferenceNumber apartment.apartment_number month
    cutLine := decide (slipIndex < 2) }

/-- The assembled binary document, abstracted to its observable content:
the drawn slips in order and the page count (`PDFDocument` starts with one
page; each `doc.addPage()` adds one). -/
structure PDFDoc where
  slips : List SlipDrawn
  pageCount : Nat
deriving Repr, DecidableEq

/-- The slip-drawing loop of `generatePaymentSlipsPDF`: the `i`-th sorted
apartment is drawn with `slipIndex = i % 3` and `doc.addPage()` runs
exactly when `i > 0 && i % 3 == 0` (recorded as `newPageBefore`). -/
def buildSlips (building : Building) (month : Nat)
    (accountFormatted : List Char) :
    Nat → List Apartment → List (Option QRImage) → List SlipDrawn
  | _, [], _ => []
  | _, _ :: _, [] => []
  | i, apt :: as, qr :: qs =>
      { drawPaymentSlip apt building month (i % 3) qr accountFormatted with
        newPageBefore := decide (0 < i ∧ i % 3 = 0) } ::
      buildSlips building month accountFormatted (i + 1) as qs

/-- Sorting comparator of the assembler:
`(a, b) => a.apartment_number - b.apartment_number`. -/
def aptLe (a b : Apartment) : Prop :=
  a.apartment_number ≤ b.apartment_number

instance : DecidableRel aptLe := fun a b => Nat.decLe _ _

instance : IsTotal Apartment aptLe :=
  ⟨fun a b => Nat.le_total a.apartment_number b.apartment_number⟩

instance : IsTrans Apartment aptLe :=
  ⟨fun _ _ _ h h' => Nat.le_trans h h'⟩

/-- `[...apartments].sort((a, b) => a.apartment_number - b.apartment_number)`,
modelled by insertion sort on the same key order. -/
def sortApartments (apartments : List Apartment) : List Apartment :=
  List.insertionSort aptLe apartments

/-- Embedding of `generatePaymentSlipsPDF` (backend pdfGenerator): sort by
apartment number, fetch one QR per sorted apartment with per-apartment
failure isolation, draw three slips per page. The `Except` error is the
`reject` path reached when `formatForDisplay` throws inside
`drawPaymentSlip` (it is the only data-dependent throw; the loop never runs
on an empty list, so no parse is attempted there and an empty document of
one blank page is emitted, as `PDFDocument` starts on a page). -/
def generatePaymentSlipsPDF (fetch : QRFetch) (apartments : List Apartment)
    (building : Building) (month : Nat) (_year : Nat) :
    Except ParseError PDFDoc :=
  let sortedApartments := sortApartments apartments
  let qrCodes := sortedApartments.map (fetchOrNull fetch)
  if apartments.isEmpty then .ok { slips := [], pageCount := 1 }
  else
    (parseBankAccount building.bank_account).map fun parsed =>
      let slips := buildSlips building month parsed.formatted 0
        sortedApartments qrCodes
      { slips := slips
        pageCount := 1 + slips.countP (·.newPageBefore) }

/-- `generatePDFFilename` (pdfGenerator): `uplatnice_{year}_{month:02d}.pdf`. -/
def generatePDFFilename (month year : Nat) : List Char :=
  "uplatnice_".data ++ natChars year ++ "_".data ++ pad2 month ++ ".pdf".data

/-- Error responses of the `GET /pdf/:year/:month` route (billings route):
each constructor is one of its early-return JSON errors; `internal` is the
catch-all 500. -/
inductive RouteError where
  | invalidYear
  | invalidMonth
  | noBuilding
  | noApartments
  | internal
deriving Repr, DecidableEq

/-- `isValidMonth` (validation middleware): integer in `[1, 12]`. -/
def isValidMonth (m : Nat) : Bool := 1 ≤ m && m ≤ 12

/-- `isValidYear` (validation middleware): integer in
`[2020, currentYear + 5]`; the wall-clock year is a parameter. -/
def isValidYear (currentYear y : Nat) : Bool := 2020 ≤ y && y ≤ currentYear + 5

/-- Embedding of the `GET /pdf/:year/:month` route handler (billings
route): validates year and month, requires a configured building and a
non-empty apartment list, then calls `generatePaymentSlipsPDF`. -/
def pdfRouteHandler (currentYear : Nat) (buildingRow : Option Building)
    (apartments : List Apartment) (fetch : QRFetch) (year month : Nat) :
    Except RouteError PDFDoc :=
  if !isValidYear currentYear year then .error .invalidYear
  else if !isValidMonth month then .error .invalidMonth
  else
    match buildingRow with
    | none => .error .noBuilding
    | some building =>
        if apartments.length = 0 then .error .noApartments
        else
          match generatePaymentSlipsPDF fetch apartments building month year with
          | .ok doc => .ok doc
          | .error _ => .error .internal

/-! ### Sample data used by concrete witnesses -/

/-- Sample building: the scenario record of the documentation, with the
short-form bank account `16054891267` and a 3500.00 RSD default amount. -/
def sampleBuilding : Building :=
  { address := "Marka Čelebonovića 73".data
    city := "Beograd".data
    bank_account := "16054891267".data
    recipient_name := "Stambena zajednica".data
    payment_purpose := "Mesecno odrzavanje zgrade".data
    default_amount := 350000 }

/-- Sample apartment constructor. -/
def mkApt (num onFloor floor : Nat) (owner : List Char) : Apartment :=
  { apartment_number := num
    apartment_on_floor := onFloor
    floor_number := floor
    owner_name := owner
    override_amount := none }

/-- Four sample apartments, deliberately out of order by number. -/
def sampleApartments : List Apartment :=
  [mkApt 3 1 1 "Ana Anić".data,
   mkApt 1 1 0 "Petar Petrović".data,
   mkApt 4 2 1 "Mira Mirić".data,
   mkApt 2 2 0 "Jovan Jović".data]

/-- An always-succeeding QR fetch oracle. -/
def sampleFetch : QRFetch := fun _ => .ok 7

/-- A fetch oracle that fails (throws) exactly for the apartment with the
given number and succeeds for every other apartment. -/
def failingFetch (n : Nat) : QRFetch := fun apt =>
  if apt.apartment_number = n then .error "NBS API error: 500".data
  else .ok apt.apartment_number

/-- Sample QR payload parameters: scenario of the documentation with
apartment 3 and month 2 (reference `03/02`), amount 3500.00. -/
def sampleParams : QRParams :=
  { bankAccount := "16054891267".data
    recipientName := "SZ".data
    recipientAddress := "Adresa 1".data
    recipientCity := "Beograd".data
    amountCents := 350000
    referenceNumber := generateReferenceNumber 3 2
    paymentPurpose := "Odrzavanje".data
    payerName := "Petar".data
    payerAddress := "Adresa 1, 2, 5".data
    payerCity := "Beograd".data }

/-- The payload `generateQRCodeData` produces for `sampleParams`. -/
def sampleQRData : QRCodeData :=
  { K := "PR".data
    V := "01".data
    C := "1".data
    R := "160000000054891267".data
    N := "SZ\r\nAdresa 1".data
    I := "RSD3500,00".data
    SF := "289".data
    S := "Odrzavanje".data
    RO := "0302".data
    P := "Petar\r\nAdresa 1, 2, 5\r\nBeograd".data }

/-- `sampleParams` with the fractional amount 3500.50. -/
def sampleParamsHalf : QRParams := { sampleParams with amountCents := 350050 }

/-- The apartment of the C8 counterexample: apartment number 5, but second
apartment on its floor. -/
def apt52 : Apartment :=
  { apartment_number := 5
    apartment_on_floor := 2
    floor_number := 2
    owner_name := "Petar Petrović".data
    override_amount := none }

/-- The parse of `sampleBuilding`'s short-form account. -/
def sampleAccount : BankAccount :=
  { bank := "160".data
    account := "0000000548912".data
    control := "67".data
    formatted := "160-0000000548912-67".data
    digits := "160000000054891267".data }

/-! ### Character and digit-string lemmas -/

theorem digitChar_isDigit (d : Nat) (h : d < 10) :
    isDigitCh (digitChar d) = true := by
  interval_cases d <;> decide

theorem natChars_mem (n : Nat) :
    ∀ c ∈ natChars n, ∃ d, d < 10 ∧ c = digitChar d := by
  induction n using natChars.induct with
  | case1 n h =>
      intro c hc
      rw [natChars, dif_pos h] at hc
      simp at hc
      exact ⟨n, h, hc⟩
  | case2 n h ih =>
      intro c hc
      rw [natChars, dif_neg h] at hc
      rcases List.mem_append.mp hc with h1 | h2
      · exact ih c h1
      · simp at h2
        exact ⟨n % 10, Nat.mod_lt _ (by omega), h2⟩

theorem natChars_all_digit (n : Nat) : ∀ c ∈ natChars n, isDigitCh c = true := by
  intro c hc
  obtain ⟨d, hd, rfl⟩ := natChars_mem n c hc
  exact digitChar_isDigit d hd

theorem isDigitCh_not_separator (c : Char) (h : isDigitCh c = true) :
    isSeparator c = false := by
  simp [isDigitCh] at h
  simp [isSeparator, Char.isWhitespace]
  obtain ⟨h1, h2⟩ := h
  refine ⟨?_, ⟨⟨?_, ?_⟩, ?_⟩, ?_⟩ <;> rintro rfl <;> revert h1 <;> decide

theorem isDigitCh_ne_dot (c : Char) (h : isDigitCh c = true) : c ≠ '.' := by
  rintro rfl
  revert h
  decide

theorem isDigitCh_ne_slash (c : Char) (h : isDigitCh c = true) : c ≠ '/' := by
  rintro rfl
  revert h
  decide

theorem natChars_length_le_two (n : Nat) (h : n < 100) :
    (natChars n).length ≤ 2 := by
  by_cases h10 : n < 10
  · rw [natChars, dif_pos h10]
    simp
  · rw [natChars, dif_neg h10, natChars, dif_pos (by omega : n / 10 < 10)]
    simp

theorem padStart_length (l : List Char) (n : Nat) (c : Char) :
    (padStart l n c).length = max n l.length := by
  simp [padStart]
  omega

theorem pad2_length (n : Nat) (h : n < 100) : (pad2 n).length = 2 := by
  rw [pad2, padStart_length]
  have := natChars_length_le_two n h
  have : (natChars n).length ≤ 2 := this
  omega

theorem pad2_all_digit (n : Nat) : ∀ c ∈ pad2 n, isDigitCh c = true := by
  intro c hc
  rcases List.mem_append.mp hc with h1 | h2
  · rw [List.eq_of_mem_replicate h1]
    decide
  · exact natChars_all_digit n c h2

theorem jsReplaceFirst_append (l₁ l₂ r : List Char) (t : Char)
    (h : ∀ c ∈ l₁, c ≠ t) :
    jsReplaceFirst (l₁ ++ t :: l₂) t r = l₁ ++ (r ++ l₂) := by
  induction l₁ with
  | nil => simp [jsReplaceFirst]
  | cons c cs ih =>
      have hc : c ≠ t := h c (List.mem_cons_self _ _)
      simp only [List.cons_append, jsReplaceFirst, if_neg hc, List.append_eq]
      rw [ih (fun x hx => h x (List.mem_cons_of_mem _ hx))]

theorem stripSeparators_all_digit (l : List Char)
    (h : ∀ c ∈ l, isDigitCh c = true) : stripSeparators l = l := by
  rw [stripSeparators, List.filter_eq_self]
  intro c hc
  rw [isDigitCh_not_separator c (h c hc)]
  rfl

/-! ### Bank account codec lemmas -/

theorem parse_error_iff (input : List Char) :
    (∃ e, parseBankAccount input = .error e) ↔
      (input = [] ∨ (stripSeparators input).all isDigitCh = false ∨
       (stripSeparators input).length ≤ 6 ∨ 19 ≤ (stripSeparators input).length) := by
  simp only [parseBankAccount]
  by_cases hemp : input.isEmpty
  · simp [hemp, List.isEmpty_iff.mp hemp]
  · rw [if_neg hemp]
    have hne : input ≠ [] := fun h => hemp (by simp [h])
    set d := stripSeparators input with hd
    by_cases hde : d.isEmpty
    · have hlen : d.length = 0 := by simp [List.isEmpty_iff.mp hde]
      refine iff_of_true ⟨.nonDigit, by simp [hde]⟩ ?_
      exact Or.inr (Or.inr (Or.inl (by omega)))
    · by_cases hall : d.all isDigitCh
      · rw [if_neg (by simp [hde, hall])]
        by_cases h18 : d.length = 18
        · rw [if_pos h18]
          refine iff_of_false (by rintro ⟨e, he⟩; simp at he) ?_
          rintro (h | h | h | h)
          · exact hne h
          · rw [hall] at h; cases h
          · omega
          · omega
        · rw [if_neg h18]
          by_cases hr : 7 ≤ d.length ∧ d.length < 18
          · rw [if_pos hr]
            refine iff_of_false (by rintro ⟨e, he⟩; simp at he) ?_
            rintro (h | h | h | h)
            · exact hne h
            · rw [hall] at h; cases h
            · omega
            · omega
          · rw [if_neg hr]
            refine iff_of_true ⟨.badLength, rfl⟩ ?_
            exact Or.inr (Or.inr (by omega))
      · rw [if_pos (by simp [hall])]
        refine iff_of_true ⟨.nonDigit, rfl⟩ ?_
        exact Or.inr (Or.inl (by simpa using hall))

/-- C1: `parseBankAccount` normalizes every accepted all-digit input to the
canonical 18-digit decomposition: an 18-digit input round-trips through the
`digits` serialization, and a 7–17 digit input is split as bank = first 3,
control = last 2, account = middle left-zero-padded to 13 characters, with
an 18-character `digits` serialization. -/
theorem C1_parse_normalizes :
    (∀ D : List Char, D.length = 18 → D.all isDigitCh = true →
       (parseBankAccount D).map BankAccount.digits = .ok D) ∧
    (∀ s : List Char, 7 ≤ s.length → s.length ≤ 17 → s.all isDigitCh = true →
       ∃ acc, parseBankAccount s = .ok acc ∧
         acc.bank = s.take 3 ∧
         acc.control = s.drop (s.length - 2) ∧
         acc.account = padStart ((s.take (s.length - 2)).drop 3) 13 '0' ∧
         acc.account.length = 13 ∧
         acc.digits.length = 18) := by
  constructor
  · intro D hlen hdig
    have hne : D.isEmpty = false := by
      cases D with
      | nil => simp at hlen
      | cons a l => rfl
    have hstrip : stripSeparators D = D :=
      stripSeparators_all_digit D (fun c hc => List.all_eq_true.mp hdig c hc)
    simp [parseBankAccount, hne, hstrip, hdig, hlen, Except.map]
  · intro s h7 h17 hdig
    have hne : s.isEmpty = false := by
      cases s with
      | nil => simp at h7
      | cons a l => rfl
    have hstrip : stripSeparators s = s :=
      stripSeparators_all_digit s (fun c hc => List.all_eq_true.mp hdig c hc)
    have h18 : ¬ s.length = 18 := by omega
    have hr : 7 ≤ s.length ∧ s.length < 18 := ⟨h7, by omega⟩
    refine ⟨{ bank := s.take 3
              account := padStart ((s.take (s.length - 2)).drop 3) 13 '0'
              control := s.drop (s.length - 2)
              formatted := s.take 3 ++ '-' ::
                (padStart ((s.take (s.length - 2)).drop 3) 13 '0' ++ '-' ::
                  s.drop (s.length - 2))
              digits := s.take 3 ++
                padStart ((s.take (s.length - 2)).drop 3) 13 '0' ++
                s.drop (s.length - 2) }, ?_, rfl, rfl, rfl, ?_, ?_⟩
    · simp only [parseBankAccount, hstrip]
      rw [if_neg (by simp [hne]), if_neg (by simp [hne, hdig]), if_neg h18,
        if_pos hr]
    · rw [padStart_length]
      simp [List.length_drop, List.length_take]
      omega
    · simp only [List.length_append]
      rw [padStart_length]
      simp [List.length_drop, List.length_take]
      omega

/-! ### Assembler lemmas -/

theorem buildSlips_length (building : Building) (month : Nat) (fa : List Char) :
    ∀ (k : Nat) (as : List Apartment) (qs : List (Option QRImage)),
      qs.length = as.length →
      (buildSlips building month fa k as qs).length = as.length := by
  intro k as
  induction as generalizing k with
  | nil => intro qs h; simp [buildSlips]
  | cons a as ih =>
      intro qs h
      cases qs with
      | nil => simp at h
      | cons q qs =>
          simp only [buildSlips, List.length_cons]
          rw [ih (k + 1) qs (by simpa using h)]

theorem buildSlips_map_apartment (building : Building) (month : Nat)
    (fa : List Char) :
    ∀ (k : Nat) (as : List Apartment) (qs : List (Option QRImage)),
      qs.length = as.length →
      (buildSlips building month fa k as qs).map SlipDrawn.apartment = as := by
  intro k as
  induction as generalizing k with
  | nil => intro qs h; simp [buildSlips]
  | cons a as ih =>
      intro qs h
      cases qs with
      | nil => simp at h
      | cons q qs =>
          simp only [buildSlips, List.map_cons]
          rw [ih (k + 1) qs (by simpa using h)]
          rfl

theorem buildSlips_get_props (building : Building) (month : Nat)
    (fa : List Char) :
    ∀ (k : Nat) (as : List Apartment) (qs : List (Option QRImage)) (i : Nat)
      (hi : i < (buildSlips building month fa k as qs).length),
      ((buildSlips building month fa k as qs).get ⟨i, hi⟩).slotIndex =
        (k + i) % 3 ∧
      ((buildSlips building month fa k as qs).get ⟨i, hi⟩).newPageBefore =
        decide (0 < k + i ∧ (k + i) % 3 = 0) := by
  intro k as
  induction as generalizing k with
  | nil => intro qs i hi; simp [buildSlips] at hi
  | cons a as ih =>
      intro qs i hi
      cases qs with
      | nil => simp [buildSlips] at hi
      | cons q qs =>
          cases i with
          | zero => exact ⟨by simp [buildSlips, drawPaymentSlip], by simp [buildSlips]⟩
          | succ i =>
              have hi' : i < (buildSlips building month fa (k + 1) as qs).length := by
                simpa [buildSlips] using hi
              have := ih (k + 1) qs i hi'
              have hk : k + 1 + i = k + (i + 1) := by omega
              constructor
              · have h1 := this.1
                rw [hk] at h1
                exact h1
              · have h2 := this.2
                rw [hk] at h2
                exact h2

theorem mem_buildSlips_map (building : Building) (month : Nat) (fa : List Char)
    (g : Apartment → Option QRImage) :
    ∀ (k : Nat) (as : List Apartment) (s : SlipDrawn),
      s ∈ buildSlips building month fa k as (as.map g) →
      s.apartment ∈ as ∧ s.qr = g s.apartment ∧
      s.payerLines = generatePayerInfo s.apartment building ∧
      s.accountDisplay = fa ∧
      s.cutLine = decide (s.slotIndex < 2) ∧
      s.refNumber = generateReferenceNumber s.apartment.apartment_number month := by
  intro k as
  induction as generalizing k with
  | nil => intro s hs; simp [buildSlips] at hs
  | cons a as ih =>
      intro s hs
      simp only [List.map_cons, buildSlips] at hs
      rcases List.mem_cons.mp hs with rfl | hs'
      · exact ⟨List.mem_cons_self _ _, rfl, rfl, rfl, rfl, rfl⟩
      · obtain ⟨h1, h2, h3, h4, h5, h6⟩ := ih (k + 1) s hs'
        exact ⟨List.mem_cons_of_mem _ h1, h2, h3, h4, h5, h6⟩

theorem countP_buildSlips_qr (building : Building) (month : Nat)
    (fa : List Char) (g : Apartment → Option QRImage)
    (p : Option QRImage → Bool) :
    ∀ (k : Nat) (as : List Apartment),
      (buildSlips building month fa k as (as.map g)).countP (fun s => p s.qr)
        = as.countP (fun a => p (g a)) := by
  intro k as
  induction as generalizing k with
  | nil => simp [buildSlips]
  | cons a as ih =>
      simp only [List.map_cons, buildSlips, List.countP_cons]
      rw [ih (k + 1)]
      rfl

theorem countP_newPage (building : Building) (month : Nat) (fa : List Char) :
    ∀ (as : List Apartment) (qs : List (Option QRImage)) (k : Nat),
      qs.length = as.length → 1 ≤ k →
      (buildSlips building month fa k as qs).countP (·.newPageBefore) =
        (k + as.length + 2) / 3 - (k + 2) / 3 := by
  intro as
  induction as with
  | nil =>
      intro qs k h hk
      simp [buildSlips]
  | cons a as ih =>
      intro qs k h hk
      cases qs with
      | nil => simp at h
      | cons q qs =>
          simp only [buildSlips, List.countP_cons]
          rw [ih qs (k + 1) (by simpa using h) (by omega)]
          have hpos : (0 < k) = True := by simp; omega
          by_cases hk3 : k % 3 = 0
          · simp only [List.length_cons]
            simp [hk3, hpos]
            omega
          · simp only [List.length_cons]
            simp [hk3]
            omega

theorem pageCount_formula (building : Building) (month : Nat) (fa : List Char)
    (as : List Apartment) (qs : List (Option QRImage))
    (h : qs.length = as.length) (hne : as ≠ []) :
    1 + (buildSlips building month fa 0 as qs).countP (·.newPageBefore) =
      (as.length + 2) / 3 := by
  cases as with
  | nil => exact absurd rfl hne
  | cons a as =>
      cases qs with
      | nil => simp at h
      | cons q qs =>
          simp only [buildSlips, List.countP_cons]
          rw [countP_newPage building month fa as qs 1 (by simpa using h)
            (by omega)]
          simp only [List.length_cons]
          simp
          omega

/-! ### Sorting lemmas -/

theorem sortApartments_perm (l : List Apartment) : List.Perm (sortApartments l) l :=
  List.perm_insertionSort _ l

theorem sortApartments_sorted (l : List Apartment) :
    List.Sorted aptLe (sortApartments l) :=
  List.sorted_insertionSort _ l

theorem sortApartments_strict (l : List Apartment)
    (h : (l.map Apartment.apartment_number).Nodup) :
    List.Pairwise (fun a b : Apartment =>
      a.apartment_number < b.apartment_number) (sortApartments l) := by
  have hs := sortApartments_sorted l
  have hperm : List.Perm (sortApartments l) l := sortApartments_perm l
  have hnd : ((sortApartments l).map Apartment.apartment_number).Nodup :=
    ((hperm.map _).nodup_iff).mpr h
  have hneq : List.Pairwise (fun a b : Apartment =>
      a.apartment_number ≠ b.apartment_number) (sortApartments l) :=
    (List.pairwise_map).mp hnd
  exact (hs.and hneq).imp (fun hab => lt_of_le_of_ne hab.1 hab.2)

instance : IsAntisymm Apartment
    (fun a b : Apartment => a.apartment_number < b.apartment_number) :=
  ⟨fun _ _ h1 h2 => absurd h2 (by omega)⟩

theorem sortApartments_eq_of_perm (l l' : List Apartment) (hp : List.Perm l l')
    (h : (l.map Apartment.apartment_number).Nodup) :
    sortApartments l = sortApartments l' := by
  have h' : (l'.map Apartment.apartment_number).Nodup := ((hp.map _).nodup_iff).mp h
  have hperm : List.Perm (sortApartments l) (sortApartments l') :=
    (sortApartments_perm l).trans (hp.trans (sortApartments_perm l').symm)
  exact List.eq_of_perm_of_sorted hperm (sortApartments_strict l h)
    (sortApartments_strict l' h')

theorem countP_eq_one_of_nodup_keys :
    ∀ (as : List Apartment) (x : Apartment), x ∈ as →
      (as.map Apartment.apartment_number).Nodup →
      as.countP (fun a => decide (a = x)) = 1 := by
  intro as
  induction as with
  | nil => intro x hx; cases hx
  | cons a as ih =>
      intro x hx hnd
      rw [List.map_cons, List.nodup_cons] at hnd
      rw [List.countP_cons]
      rcases List.mem_cons.mp hx with rfl | hx'
      · have htail : as.countP (fun a => decide (a = x)) = 0 := by
          rw [List.countP_eq_zero]
          intro b hb
          simp only [decide_eq_true_eq]
          rintro rfl
          exact hnd.1 (List.mem_map_of_mem _ hb)
        simp [htail]
      · have hkey : ¬ (a = x) := by
          rintro rfl
          exact hnd.1 (List.mem_map_of_mem _ hx')
        rw [ih x hx' hnd.2]
        simp [hkey]

theorem isValidBankAccount_ok (b : List Char)
    (h : isValidBankAccount b = true) :
    ∃ acc, parseBankAccount b = .ok acc := by
  unfold isValidBankAccount at h
  cases hp : parseBankAccount b with
  | ok acc => exact ⟨acc, rfl⟩
  | error e => rw [hp] at h; simp at h

/-- C2: for a non-empty list of apartments with pairwise-distinct apartment
numbers, `generatePaymentSlipsPDF` emits the slips in strictly increasing
apartment-number order (and is invariant under permuting the input list);
the `i`-th slip occupies slot `i % 3`; a page break happens exactly when
`i > 0 ∧ i % 3 = 0`; and the page count is `⌈N/3⌉ = (N + 2) / 3`. -/
theorem C2_sorted_pagination (apartments : List Apartment) (building : Building)
    (month year : Nat) (fetch : QRFetch)
    (hne : apartments ≠ [])
    (hnodup : (apartments.map Apartment.apartment_number).Nodup)
    (hacc : isValidBankAccount building.bank_account = true) :
    ∃ doc, generatePaymentSlipsPDF fetch apartments building month year = .ok doc ∧
      List.Perm (doc.slips.map SlipDrawn.apartment) apartments ∧
      List.Chain' (· < ·)
        (doc.slips.map (fun s => s.apartment.apartment_number)) ∧
      doc.slips.length = apartments.length ∧
      (∀ (i : Nat) (hi : i < doc.slips.length),
        (doc.slips.get ⟨i, hi⟩).slotIndex = i % 3 ∧
        (doc.slips.get ⟨i, hi⟩).newPageBefore = decide (0 < i ∧ i % 3 = 0)) ∧
      doc.pageCount = (apartments.length + 2) / 3 ∧
      (∀ l', List.Perm l' apartments →
        generatePaymentSlipsPDF fetch l' building month year =
          generatePaymentSlipsPDF fetch apartments building month year) := by
  obtain ⟨acc, haccp⟩ := isValidBankAccount_ok _ hacc
  have hemp : apartments.isEmpty = false := by
    cases apartments with
    | nil => exact absurd rfl hne
    | cons a l => rfl
  have hqlen : ((sortApartments apartments).map (fetchOrNull fetch)).length =
      (sortApartments apartments).length := List.length_map _ _
  have hslen : (sortApartments apartments).length = apartments.length :=
    (sortApartments_perm apartments).length_eq
  have hsne : sortApartments apartments ≠ [] := by
    intro h
    rw [h] at hslen
    cases apartments with
    | nil => exact absurd rfl hne
    | cons a l => simp at hslen
  have hgen : generatePaymentSlipsPDF fetch apartments building month year = .ok
      { slips := buildSlips building month acc.formatted 0
          (sortApartments apartments)
          ((sortApartments apartments).map (fetchOrNull fetch))
        pageCount := 1 + (buildSlips building month acc.formatted 0
          (sortApartments apartments)
          ((sortApartments apartments).map (fetchOrNull fetch))).countP
            (·.newPageBefore) } := by
    unfold generatePaymentSlipsPDF
    rw [if_neg (by simp [hemp]), haccp]
    rfl
  have hmap : (buildSlips building month acc.formatted 0
      (sortApartments apartments)
      ((sortApartments apartments).map (fetchOrNull fetch))).map
        SlipDrawn.apartment = sortApartments apartments :=
    buildSlips_map_apartment building month acc.formatted 0 _ _ hqlen
  refine ⟨_, hgen, ?_, ?_, ?_, ?_, ?_, ?_⟩
  · rw [hmap]
    exact sortApartments_perm apartments
  · have : (buildSlips building month acc.formatted 0
        (sortApartments apartments)
        ((sortApartments apartments).map (fetchOrNull fetch))).map
          (fun s => s.apartment.apartment_number) =
        (sortApartments apartments).map Apartment.apartment_number := by
      rw [show (fun s : SlipDrawn => s.apartment.apartment_number) =
        (Apartment.apartment_number ∘ SlipDrawn.apartment) from rfl,
        ← List.map_map, hmap]
    rw [this]
    exact List.chain'_iff_pairwise.mpr
      ((List.pairwise_map).mpr (sortApartments_strict apartments hnodup))
  · rw [buildSlips_length building month acc.formatted 0 _ _ hqlen, hslen]
  · intro i hi
    have h := buildSlips_get_props building month acc.formatted 0
      (sortApartments apartments)
      ((sortApartments apartments).map (fetchOrNull fetch)) i hi
    simpa using h
  · show 1 + _ = _
    rw [pageCount_formula building month acc.formatted _ _ hqlen hsne, hslen]
  · intro l' hp
    have hne' : l'.isEmpty = false := by
      cases l' with
      | nil => exact absurd (List.Perm.eq_nil (List.Perm.symm hp)) hne
      | cons a l => rfl
    unfold generatePaymentSlipsPDF
    rw [sortApartments_eq_of_perm l' apartments hp
      (((hp.map _).nodup_iff).mpr hnodup)]
    rw [if_neg (by simp [hne']), if_neg (by simp [hemp])]

/-- C3: if the QR fetch fails for exactly one of the apartments,
`generatePaymentSlipsPDF` still succeeds with one slip per apartment, all
but the failed apartment's slip carry a QR image, and the failed
apartment's slip alone has `none`. -/
theorem C3_partial_qr_failure (apartments : List Apartment)
    (building : Building) (month year : Nat) (fetch : QRFetch)
    (failed : Apartment)
    (hmem : failed ∈ apartments)
    (hnodup : (apartments.map Apartment.apartment_number).Nodup)
    (hfail : ∀ apt ∈ apartments, (fetchOrNull fetch apt = none ↔ apt = failed))
    (hacc : isValidBankAccount building.bank_account = true) :
    ∃ doc, generatePaymentSlipsPDF fetch apartments building month year = .ok doc ∧
      doc.slips.length = apartments.length ∧
      doc.slips.countP (fun s => s.qr.isSome) = apartments.length - 1 ∧
      doc.slips.countP (fun s => s.qr.isNone) = 1 ∧
      (∀ s ∈ doc.slips, (s.qr = none ↔ s.apartment = failed)) := by
  obtain ⟨acc, haccp⟩ := isValidBankAccount_ok _ hacc
  have hne : apartments ≠ [] := by
    intro h
    rw [h] at hmem
    cases hmem
  have hemp : apartments.isEmpty = false := by
    cases apartments with
    | nil => exact absurd rfl hne
    | cons a l => rfl
  have hqlen : ((sortApartments apartments).map (fetchOrNull fetch)).length =
      (sortApartments apartments).length := List.length_map _ _
  have hslen : (sortApartments apartments).length = apartments.length :=
    (sortApartments_perm apartments).length_eq
  have hsmem : ∀ a : Apartment, a ∈ sortApartments apartments ↔ a ∈ apartments :=
    fun a => (sortApartments_perm apartments).mem_iff
  have hgen : generatePaymentSlipsPDF fetch apartments building month year = .ok
      { slips := buildSlips building month acc.formatted 0
          (sortApartments apartments)
          ((sortApartments apartments).map (fetchOrNull fetch))
        pageCount := 1 + (buildSlips building month acc.formatted 0
          (sortApartments apartments)
          ((sortApartments apartments).map (fetchOrNull fetch))).countP
            (·.newPageBefore) } := by
    unfold generatePaymentSlipsPDF
    rw [if_neg (by simp [hemp]), haccp]
    rfl
  have hcount_none : (buildSlips building month acc.formatted 0
      (sortApartments apartments)
      ((sortApartments apartments).map (fetchOrNull fetch))).countP
        (fun s => s.qr.isNone) =
      (sortApartments apartments).countP (fun a => decide (a = failed)) := by
    rw [countP_buildSlips_qr building month acc.formatted (fetchOrNull fetch)
      Option.isNone 0 (sortApartments apartments)]
    refine List.countP_congr ?_
    intro a ha
    have h := hfail a ((hsmem a).mp ha)
    constructor
    · intro h1
      simp only [Option.isNone_iff_eq_none] at h1
      simp [h.mp h1]
    · intro h1
      simp only [decide_eq_true_eq] at h1
      simp [Option.isNone_iff_eq_none, h.mpr h1]
  have hone : (sortApartments apartments).countP (fun a => decide (a = failed)) = 1 :=
    countP_eq_one_of_nodup_keys (sortApartments apartments) failed
      ((hsmem failed).mpr hmem)
      ((((sortApartments_perm apartments).map _).nodup_iff).mpr hnodup)
  have hlen : (buildSlips building month acc.formatted 0
      (sortApartments apartments)
      ((sortApartments apartments).map (fetchOrNull fetch))).length =
      apartments.length := by
    rw [buildSlips_length building month acc.formatted 0 _ _ hqlen, hslen]
  refine ⟨_, hgen, hlen, ?_, ?_, ?_⟩
  · have hsplit := List.length_eq_countP_add_countP
      (fun s : SlipDrawn => s.qr.isNone)
      (l := buildSlips building month acc.formatted 0
        (sortApartments apartments)
        ((sortApartments apartments).map (fetchOrNull fetch)))
    have hsome : (buildSlips building month acc.formatted 0
        (sortApartments apartments)
        ((sortApartments apartments).map (fetchOrNull fetch))).countP
          (fun s => s.qr.isSome) =
        (buildSlips building month acc.formatted 0
        (sortApartments apartments)
        ((sortApartments apartments).map (fetchOrNull fetch))).countP
          (fun s => decide ¬(s.qr.isNone = true)) := by
      refine List.countP_congr ?_
      intro s _
      cases s.qr <;> simp
    rw [hsome]
    omega
  · rw [hcount_none, hone]
  · intro s hs
    obtain ⟨h1, h2, _, _, _, _⟩ := mem_buildSlips_map building month
      acc.formatted (fetchOrNull fetch) 0 (sortApartments apartments) s hs
    rw [h2]
    exact hfail s.apartment ((hsmem s.apartment).mp h1)

/-! ### QR payload lemmas -/

theorem replace_dot_toFixed2 (c : Nat) :
    jsReplaceFirst (toFixed2 c) '.' [','] =
      natChars (c / 100) ++ ',' :: pad2 (c % 100) := by
  rw [toFixed2, jsReplaceFirst_append (natChars (c / 100)) (pad2 (c % 100))
    [','] '.' (fun ch hch => isDigitCh_ne_dot ch (natChars_all_digit _ ch hch))]
  rfl

theorem replace_slash_ref (a m : Nat) :
    jsReplaceFirst (generateReferenceNumber a m) '/' [] = pad2 a ++ pad2 m := by
  rw [generateReferenceNumber, jsReplaceFirst_append (pad2 a) (pad2 m) [] '/'
    (fun ch hch => isDigitCh_ne_slash ch (pad2_all_digit _ ch hch))]
  rfl

theorem generateQRCodeData_ok (p : QRParams) (acc : QRCodeData)
    (h : generateQRCodeData p = .ok acc) :
    acc.I = "RSD".data ++ jsReplaceFirst (toFixed2 p.amountCents) '.' [','] ∧
    acc.RO = jsReplaceFirst p.referenceNumber '/' [] := by
  unfold generateQRCodeData at h
  cases hf : formatForQR p.bankAccount with
  | error e => rw [hf] at h; simp [Except.map] at h
  | ok fa =>
      rw [hf] at h
      simp only [Except.map, Except.ok.injEq] at h
      rw [← h]
      exact ⟨rfl, rfl⟩

/-- C5: the QR payload amount field `I` is `"RSD"` followed by the amount
with exactly two fractional digits and a comma as decimal separator;
3500 yields `"RSD3500,00"` and 3500.50 yields `"RSD3500,50"`. -/
theorem C5_amount_format (p : QRParams) (acc : QRCodeData)
    (h : generateQRCodeData p = .ok acc) :
    acc.I = "RSD".data ++ natChars (p.amountCents / 100) ++ ',' ::
      pad2 (p.amountCents % 100) ∧
    (pad2 (p.amountCents % 100)).length = 2 ∧
    (p.amountCents = 350000 → acc.I = "RSD3500,00".data) ∧
    (p.amountCents = 350050 → acc.I = "RSD3500,50".data) := by
  obtain ⟨hI, _⟩ := generateQRCodeData_ok p acc h
  have hI' : acc.I = "RSD".data ++ natChars (p.amountCents / 100) ++ ',' ::
      pad2 (p.amountCents % 100) := by
    rw [hI, replace_dot_toFixed2, List.append_assoc]
  refine ⟨hI', pad2_length _ (Nat.mod_lt _ (by omega)), ?_, ?_⟩
  · intro hc
    rw [hI', hc]
    simp [natChars, digitChar, pad2, padStart]
  · intro hc
    rw [hI', hc]
    simp [natChars, digitChar, pad2, padStart]

/-- C6: for apartment numbers in [1,99] and months in [1,12] the display
reference is the two zero-padded 2-digit segments joined by the `/`
delimiter (apartment 3, month 2 gives `"03/02"`, never `"3/2"`), and the
QR payload `RO` field is the display reference with the delimiter
removed (`"0302"`). -/
theorem C6_reference_format (a m : Nat) (p : QRParams) (acc : QRCodeData)
    (ha1 : 1 ≤ a) (ha2 : a ≤ 99) (hm1 : 1 ≤ m) (hm2 : m ≤ 12)
    (href : p.referenceNumber = generateReferenceNumber a m)
    (h : generateQRCodeData p = .ok acc) :
    (pad2 a).length = 2 ∧ (pad2 m).length = 2 ∧
    generateReferenceNumber a m = pad2 a ++ '/' :: pad2 m ∧
    acc.RO = pad2 a ++ pad2 m ∧
    (a = 3 → m = 2 →
      generateReferenceNumber a m = "03/02".data ∧ acc.RO = "0302".data) := by
  obtain ⟨_, hRO⟩ := generateQRCodeData_ok p acc h
  have hRO' : acc.RO = pad2 a ++ pad2 m := by
    rw [hRO, href, replace_slash_ref]
  refine ⟨pad2_length a (by omega), pad2_length m (by omega), rfl, hRO', ?_⟩
  rintro rfl rfl
  constructor
  · rw [generateReferenceNumber]
    simp [pad2, padStart, natChars, digitChar]
  · rw [hRO']
    simp [pad2, padStart, natChars, digitChar]

/-- C10: for apartment numbers in [1,99] and months in [1,12], the QR
payload `RO` field built by `generatePaymentQRCodeData` is exactly 4
decimal digits (zero-padded apartment number followed by zero-padded
month, with the delimiter gone). -/
theorem C10_ro_fixed_width (apartment : Apartment) (building : Building)
    (month : Nat) (acc : QRCodeData)
    (ha1 : 1 ≤ apartment.apartment_number) (ha2 : apartment.apartment_number ≤ 99)
    (hm1 : 1 ≤ month) (hm2 : month ≤ 12)
    (h : generatePaymentQRCodeData apartment building month = .ok acc) :
    acc.RO = pad2 apartment.apartment_number ++ pad2 month ∧
    acc.RO.length = 4 ∧
    acc.RO.all isDigitCh = true := by
  obtain ⟨_, hRO⟩ := generateQRCodeData_ok _ acc h
  have hRO' : acc.RO = pad2 apartment.apartment_number ++ pad2 month := by
    rw [hRO]
    exact replace_slash_ref apartment.apartment_number month
  refine ⟨hRO', ?_, ?_⟩
  · rw [hRO', List.length_append, pad2_length _ (by omega),
      pad2_length _ (by omega)]
  · rw [hRO', List.all_eq_true]
    intro c hc
    rcases List.mem_append.mp hc with h1 | h1
    · exact pad2_all_digit _ c h1
    · exact pad2_all_digit _ c h1

/-- C4 (counterexample): called with an empty apartment list,
`generatePaymentSlipsPDF` does not fail — it resolves with a document
containing no slips (one blank page), the empty-input rejection being
absent from the generator itself. -/
theorem C4_counterexample :
    generatePaymentSlipsPDF sampleFetch [] sampleBuilding 3 2025 =
      .ok { slips := [], pageCount := 1 } := rfl

/-- C4 (amended): the empty-list rejection lives in the HTTP route
(`GET /pdf/:year/:month` returns the 400 error `Nema registrovanih
stanova` before the generator is called); `generatePaymentSlipsPDF`
itself, called with an empty list, succeeds with a slipless document. -/
theorem C4_amended (currentYear : Nat) (building : Building)
    (fetch : QRFetch) (year month : Nat)
    (hy : isValidYear currentYear year = true)
    (hm : isValidMonth month = true) :
    pdfRouteHandler currentYear (some building) [] fetch year month =
      .error .noApartments ∧
    generatePaymentSlipsPDF fetch [] building month year =
      .ok { slips := [], pageCount := 1 } := by
  constructor
  · unfold pdfRouteHandler
    rw [hy, hm]
    rfl
  · rfl

/-- C8 (counterexample): for an apartment with `apartment_number = 5` but
`apartment_on_floor = 2`, the payer section's second line reads
`стан 2` — it interpolates `apartment_on_floor`, not the apartment
number 5 the claim requires. -/
theorem C8_counterexample :
    generatePayerInfo apt52 sampleBuilding =
      ["Petar Petrović".data,
       "Marka Čelebonovića 73, спрат 2, стан 2".data,
       "Beograd".data] ∧
    generatePayerInfo apt52 sampleBuilding ≠
      ["Petar Petrović".data,
       "Marka Čelebonovića 73, спрат 2, стан 5".data,
       "Beograd".data] := by
  constructor
  · simp [generatePayerInfo, apt52, sampleBuilding, natChars, digitChar]
  · simp [generatePayerInfo, apt52, sampleBuilding, natChars, digitChar]

/-- C8 (amended): on every slip rendered by the backend generator, the
payer section's second line is
`{building address}, спрат {floor_number}, стан {apartment_on_floor}` —
built from the apartment's position on its floor, not its apartment
number. (The worker pdfGenerator variant interpolates
`apartment_number` instead.) -/
theorem C8_amended (apartments : List Apartment) (building : Building)
    (month year : Nat) (fetch : QRFetch) (doc : PDFDoc)
    (h : generatePaymentSlipsPDF fetch apartments building month year = .ok doc) :
    (∀ s ∈ doc.slips,
      s.payerLines = [s.apartment.owner_name,
        building.address ++ ", спрат ".data ++
          natChars s.apartment.floor_number ++ ", стан ".data ++
          natChars s.apartment.apartment_on_floor,
        building.city]) ∧
    (∀ (apt : Apartment) (b : Building),
      generatePayerInfoWorker apt b =
        [apt.owner_name,
         b.address ++ ", спрат ".data ++ natChars apt.floor_number ++
           ", стан ".data ++ natChars apt.apartment_number,
         b.city]) := by
  refine ⟨?_, fun apt b => rfl⟩
  unfold generatePaymentSlipsPDF at h
  by_cases hemp : apartments.isEmpty
  · rw [if_pos hemp] at h
    simp only [Except.ok.injEq] at h
    rw [← h]
    intro s hs
    cases hs
  · rw [if_neg hemp] at h
    cases hp : parseBankAccount building.bank_account with
    | error e => rw [hp] at h; simp [Except.map] at h
    | ok acc =>
        rw [hp] at h
        simp only [Except.map, Except.ok.injEq] at h
        rw [← h]
        intro s hs
        obtain ⟨_, _, h3, _, _, _⟩ := mem_buildSlips_map building month
          acc.formatted (fetchOrNull fetch) 0 (sortApartments apartments) s hs
        rw [h3]
        rfl

/-- C9 (counterexample): a document of a single apartment — its only slip
is the last slip of the document and sits at slot 0 of a partial page, yet
a dashed cut line is drawn below it. -/
theorem C9_counterexample :
    (generatePaymentSlipsPDF sampleFetch [mkApt 5 2 2 "Petar".data]
        sampleBuilding 3 2025).map
      (fun doc => (doc.slips.map SlipDrawn.cutLine,
                   doc.slips.map SlipDrawn.slotIndex)) =
      .ok ([true], [0]) := rfl

/-- C9 (amended): the dashed cut line is drawn below slot 0 and slot 1 of
every page — including below the final slip of the document when it
occupies slot 0 or slot 1 of a partial page — and never below slot 2. -/
theorem C9_amended (apartments : List Apartment) (building : Building)
    (month year : Nat) (fetch : QRFetch) (doc : PDFDoc)
    (h : generatePaymentSlipsPDF fetch apartments building month year = .ok doc) :
    ∀ s ∈ doc.slips, s.cutLine = decide (s.slotIndex < 2) := by
  unfold generatePaymentSlipsPDF at h
  by_cases hemp : apartments.isEmpty
  · rw [if_pos hemp] at h
    simp only [Except.ok.injEq] at h
    rw [← h]
    intro s hs
    cases hs
  · rw [if_neg hemp] at h
    cases hp : parseBankAccount building.bank_account with
    | error e => rw [hp] at h; simp [Except.map] at h
    | ok acc =>
        rw [hp] at h
        simp only [Except.map, Except.ok.injEq] at h
        rw [← h]
        intro s hs
        obtain ⟨_, _, _, _, h5, _⟩ := mem_buildSlips_map building month
          acc.formatted (fetchOrNull fetch) 0 (sortApartments apartments) s hs
        exact h5

/-! ### Claim C7 and witnesses -/

/-- C7: `parseBankAccount` fails exactly for: empty input, a non-digit
character remaining after stripping dashes and whitespace, stripped digit
length 6 or below, or stripped digit length 19 or above; and every failing
input makes `isValidBankAccount` return false (it never throws: it is a
total function). -/
theorem C7_failure_modes (input : List Char) :
    ((∃ e, parseBankAccount input = .error e) ↔
      (input = [] ∨ (stripSeparators input).all isDigitCh = false ∨
       (stripSeparators input).length ≤ 6 ∨
       19 ≤ (stripSeparators input).length)) ∧
    ((∃ e, parseBankAccount input = .error e) →
      isValidBankAccount input = false) := by
  refine ⟨parse_error_iff input, ?_⟩
  rintro ⟨e, he⟩
  simp [isValidBankAccount, he]

theorem generate_ok_exists (fetch : QRFetch) (apartments : List Apartment)
    (building : Building) (month year : Nat)
    (hacc : isValidBankAccount building.bank_account = true) :
    ∃ doc, generatePaymentSlipsPDF fetch apartments building month year =
      .ok doc := by
  by_cases hemp : apartments.isEmpty
  · exact ⟨_, by unfold generatePaymentSlipsPDF; rw [if_pos hemp]⟩
  · obtain ⟨acc, hp⟩ := isValidBankAccount_ok _ hacc
    exact ⟨_, by unfold generatePaymentSlipsPDF; rw [if_neg hemp, hp]; rfl⟩

theorem generateQRCodeData_exists (p : QRParams) (fa : List Char)
    (hf : formatForQR p.bankAccount = .ok fa) :
    ∃ acc, generateQRCodeData p = .ok acc := by
  unfold generateQRCodeData
  rw [hf]
  exact ⟨_, rfl⟩

/-- Witness for C1 at the documented inputs. -/
theorem C1_witness :
    (parseBankAccount "160000000054891267".data).map BankAccount.digits =
      .ok "160000000054891267".data ∧
    parseBankAccount "16054891267".data = .ok sampleAccount ∧
    sampleAccount.bank = "160".data ∧ sampleAccount.control = "67".data ∧
    sampleAccount.account = "0000000548912".data ∧
    sampleAccount.account.length = 13 ∧
    sampleAccount.digits.length = 18 := by
  obtain ⟨acc, hp, _, _, _, hl13, hl18⟩ :=
    C1_parse_normalizes.2 "16054891267".data (by decide) (by decide) (by decide)
  have hcalc : parseBankAccount "16054891267".data = .ok sampleAccount := rfl
  have hacc : acc = sampleAccount := by
    rw [hcalc] at hp
    injection hp with h
    exact h.symm
  rw [hacc] at hl13 hl18
  exact ⟨C1_parse_normalizes.1 _ (by decide) (by decide), hcalc, rfl, rfl, rfl,
    hl13, hl18⟩

/-- Witness for C7 at concrete failing inputs. -/
theorem C7_witness :
    isValidBankAccount "12345".data = false ∧
    isValidBankAccount "160-00000005489AB-67".data = false ∧
    isValidBankAccount "1234567890123456789".data = false ∧
    isValidBankAccount [] = false := by
  refine ⟨?_, ?_, ?_, ?_⟩
  · exact (C7_failure_modes "12345".data).2
      ((C7_failure_modes "12345".data).1.mpr
        (Or.inr (Or.inr (Or.inl (by decide)))))
  · exact (C7_failure_modes "160-00000005489AB-67".data).2
      ((C7_failure_modes "160-00000005489AB-67".data).1.mpr
        (Or.inr (Or.inl (by decide))))
  · exact (C7_failure_modes "1234567890123456789".data).2
      ((C7_failure_modes "1234567890123456789".data).1.mpr
        (Or.inr (Or.inr (Or.inr (by decide)))))
  · exact (C7_failure_modes []).2
      ((C7_failure_modes []).1.mpr (Or.inl rfl))

/-- Witness for C2: four out-of-order apartments give slots 0,1,2,0, one
page break before the fourth slip, two pages, and a permutation of the
input list leaves the generated document unchanged. -/
theorem C2_witness :
    (generatePaymentSlipsPDF sampleFetch sampleApartments sampleBuilding 3
        2025).map
      (fun doc => (doc.slips.map SlipDrawn.slotIndex,
                   doc.slips.map SlipDrawn.newPageBefore,
                   doc.pageCount)) =
      .ok ([0, 1, 2, 0], [false, false, false, true], 2) ∧
    generatePaymentSlipsPDF sampleFetch
        [mkApt 4 2 1 "Mira Mirić".data,
         mkApt 2 2 0 "Jovan Jović".data,
         mkApt 3 1 1 "Ana Anić".data,
         mkApt 1 1 0 "Petar Petrović".data] sampleBuilding 3 2025 =
      generatePaymentSlipsPDF sampleFetch sampleApartments sampleBuilding 3
        2025 := by
  obtain ⟨doc, hgen, _, _, hlen, hget, hpage, hinv⟩ :=
    C2_sorted_pagination sampleApartments sampleBuilding 3 2025 sampleFetch
      (by decide) (by decide) (by decide)
  have hlen4 : doc.slips.length = 4 := by rw [hlen]; rfl
  have hmap1 : doc.slips.map SlipDrawn.slotIndex = [0, 1, 2, 0] := by
    apply List.ext_get (by simp [hlen4])
    intro i h1 h2
    rw [List.get_map]
    rw [(hget i (by simpa using h1)).1]
    simp at h2
    interval_cases i <;> rfl
  have hmap2 : doc.slips.map SlipDrawn.newPageBefore =
      [false, false, false, true] := by
    apply List.ext_get (by simp [hlen4])
    intro i h1 h2
    rw [List.get_map]
    rw [(hget i (by simpa using h1)).2]
    simp at h2
    interval_cases i <;> rfl
  have hpage2 : doc.pageCount = 2 := by rw [hpage]; rfl
  constructor
  · rw [hgen]
    simp [Except.map, hmap1, hmap2, hpage2]
  · exact hinv _ (by decide)

/-- Witness for C3: the fetch fails for apartment 2 only; three of four
slips carry a QR image and exactly one has none. -/
theorem C3_witness :
    (generatePaymentSlipsPDF (failingFetch 2) sampleApartments sampleBuilding
        3 2025).map
      (fun doc => (doc.slips.length,
                   doc.slips.countP (fun s => s.qr.isSome),
                   doc.slips.countP (fun s => s.qr.isNone))) =
      .ok (4, 3, 1) := by
  obtain ⟨doc, hgen, hlen, hsome, hnone, _⟩ :=
    C3_partial_qr_failure sampleApartments sampleBuilding 3 2025
      (failingFetch 2) (mkApt 2 2 0 "Jovan Jović".data)
      (by decide) (by decide) (by decide) (by decide)
  have h1 : doc.slips.length = 4 := by rw [hlen]; rfl
  have h2 : doc.slips.countP (fun s => s.qr.isSome) = 3 := by rw [hsome]; rfl
  rw [hgen]
  simp [Except.map, h1, h2, hnone]

/-- Witness for C4 (amended) at concrete route inputs. -/
theorem C4_witness :
    pdfRouteHandler 2025 (some sampleBuilding) [] sampleFetch 2025 3 =
      .error .noApartments ∧
    generatePaymentSlipsPDF sampleFetch [] sampleBuilding 3 2025 =
      .ok { slips := [], pageCount := 1 } :=
  C4_amended 2025 sampleBuilding sampleFetch 2025 3 (by decide) (by decide)

/-- Witness for C5 at the documented amounts 3500.00 and 3500.50. -/
theorem C5_witness :
    (generateQRCodeData sampleParams).map QRCodeData.I =
      .ok "RSD3500,00".data ∧
    (generateQRCodeData sampleParamsHalf).map QRCodeData.I =
      .ok "RSD3500,50".data := by
  constructor
  · obtain ⟨acc, hacc⟩ := generateQRCodeData_exists sampleParams
      "160000000054891267".data rfl
    rw [hacc]
    simp [Except.map, (C5_amount_format sampleParams acc hacc).2.2.1 rfl]
  · obtain ⟨acc, hacc⟩ := generateQRCodeData_exists sampleParamsHalf
      "160000000054891267".data rfl
    rw [hacc]
    simp [Except.map, (C5_amount_format sampleParamsHalf acc hacc).2.2.2 rfl]

/-- Witness for C6 at apartment 3, month 2. -/
theorem C6_witness :
    (generateQRCodeData sampleParams).map QRCodeData.RO = .ok "0302".data ∧
    generateReferenceNumber 3 2 = "03/02".data := by
  obtain ⟨acc, hacc⟩ := generateQRCodeData_exists sampleParams
    "160000000054891267".data rfl
  have h := C6_reference_format 3 2 sampleParams acc (by decide) (by decide)
    (by decide) (by decide) rfl hacc
  obtain ⟨hex1, hex2⟩ := h.2.2.2.2 rfl rfl
  constructor
  · rw [hacc]
    simp [Except.map, hex2]
  · exact hex1

/-- Witness for C8 (amended) on a generated single-slip document. -/
theorem C8_witness :
    (generatePaymentSlipsPDF sampleFetch [apt52] sampleBuilding 3 2025).map
      (fun doc => doc.slips.all
        (fun s => decide (s.payerLines = [s.apartment.owner_name,
          sampleBuilding.address ++ ", спрат ".data ++
            natChars s.apartment.floor_number ++ ", стан ".data ++
            natChars s.apartment.apartment_on_floor,
          sampleBuilding.city]))) = .ok true := by
  obtain ⟨doc, hgen⟩ := generate_ok_exists sampleFetch [apt52] sampleBuilding
    3 2025 (by decide)
  have h := (C8_amended [apt52] sampleBuilding 3 2025 sampleFetch doc hgen).1
  rw [hgen]
  simp only [Except.map, Except.ok.injEq]
  rw [List.all_eq_true]
  intro s hs
  rw [h s hs]
  simp

/-- Witness for C9 (amended) on a generated single-slip document. -/
theorem C9_witness :
    (generatePaymentSlipsPDF sampleFetch [apt52] sampleBuilding 3 2025).map
      (fun doc => doc.slips.all
        (fun s => s.cutLine == decide (s.slotIndex < 2))) = .ok true := by
  obtain ⟨doc, hgen⟩ := generate_ok_exists sampleFetch [apt52] sampleBuilding
    3 2025 (by decide)
  have h := C9_amended [apt52] sampleBuilding 3 2025 sampleFetch doc hgen
  rw [hgen]
  simp only [Except.map, Except.ok.injEq]
  rw [List.all_eq_true]
  intro s hs
  rw [h s hs]
  simp

/-- Witness for C10: apartment 5, month 3 yields the 4-digit `RO = 0503`. -/
theorem C10_witness :
    (generatePaymentQRCodeData apt52 sampleBuilding 3).map
      (fun acc => (acc.RO, acc.RO.length, acc.RO.all isDigitCh)) =
      .ok ("0503".data, 4, true) := by
  obtain ⟨acc, hacc⟩ : ∃ acc,
      generatePaymentQRCodeData apt52 sampleBuilding 3 = .ok acc :=
    generateQRCodeData_exists _ "160000000054891267".data rfl
  have h := C10_ro_fixed_width apt52 sampleBuilding 3 acc (by decide)
    (by decide) (by decide) (by decide) hacc
  have hRO : acc.RO = "0503".data := by
    rw [h.1]
    simp [apt52, pad2, padStart, natChars, digitChar]
  rw [hacc]
  simp [Except.map, hRO, h.2.1]
  decide

end MC73
